import Mathlib

/-!
Shallow embedding of the rankontop scoring backend
(`src/backend/main.py`, `src/backend/analyzers/{seo,aieo,aso}_analyzer.py`,
`src/backend/database.py`) for checking the natural-language specification.

Python floats appearing in scoring formulas (0.4, 0.3, 33.3, ...) are
modelled as exact rationals; `round(x, 1)` is modelled as exact
round-half-to-even on rationals (Python's documented tie rule).
External network and database effects are modelled as explicit outcome
parameters in an `Env` record: each adapter/database call site in the
source reads its outcome from `Env` instead of performing I/O, and the
code that consumes those outcomes is translated line by line.
-/

namespace RankOnTop

/-- Python truthiness of an `Optional[str]`-shaped value: `None` and the
empty string are falsy, any other string is truthy.  Used wherever
`main.py` writes `if request.keyword:`, `if request.app_id:`, etc. -/
def pyTruthy : Option String → Bool
  | none => false
  | some s => !s.isEmpty

/-- Python `round(x, 1)` on an exact rational: nearest multiple of 1/10,
ties to even (Python's banker's rounding).  `Rat.floor` is the floor
function on `ℚ` (it equals `⌊·⌋`, see `Rat.floor_def'`). -/
def pyRound1 (x : ℚ) : ℚ :=
  let y := x * 10
  let f : ℤ := Rat.floor y
  let r : ℚ := y - (f : ℚ)
  let n : ℤ :=
    if r < 1/2 then f
    else if 1/2 < r then f + 1
    else if f % 2 = 0 then f else f + 1
  (n : ℚ) / 10

/-! ## String helpers modelling `urllib.parse` / Python string operations -/

/-- Boolean prefix test on character lists (models Python `str.startswith`
and is the building block for the substring test below). -/
def isPrefixChars : List Char → List Char → Bool
  | [], _ => true
  | _ :: _, [] => false
  | a :: as, b :: bs => a == b && isPrefixChars as bs

/-- Boolean substring test on character lists: models the Python
expression `sub in s` on strings. -/
def containsSub (pat : List Char) : List Char → Bool
  | [] => isPrefixChars pat []
  | c :: rest => isPrefixChars pat (c :: rest) || containsSub pat rest

/-- Scan forward to just past the first occurrence of `//`. -/
def afterSlashSlash : List Char → Option (List Char)
  | '/' :: '/' :: rest => some rest
  | _ :: rest => afterSlashSlash rest
  | [] => none

/-- Take characters up to the first `/`, `?` or `#` (the delimiters that
end the authority component of a URL). -/
def takeNetloc : List Char → List Char
  | [] => []
  | c :: rest => if c = '/' || c = '?' || c = '#' then [] else c :: takeNetloc rest

/-- Models `urllib.parse.urlparse(url).netloc` for URLs carrying an
explicit `scheme://` prefix (the shape pydantic's `HttpUrl` guarantees
for every `request.url`): the text between the first `//` and the next
`/`, `?` or `#`.  Empty when the URL has no `//`. -/
def netloc (url : String) : List Char :=
  match afterSlashSlash url.data with
  | some rest => takeNetloc rest
  | none => []

/-- Models Python `s.replace('www.', '')`: delete every occurrence of
`www.`, scanning left to right and resuming after each deletion. -/
def stripWWW : List Char → List Char
  | 'w' :: 'w' :: 'w' :: '.' :: rest => stripWWW rest
  | c :: rest => c :: stripWWW rest
  | [] => []

/-! ## AIEO analyzer (`src/backend/analyzers/aieo_analyzer.py`) -/

/-- Models `keyword.split(',')[0].strip()` from `get_keyword_insights`. -/
def first_keyword (keyword : String) : String :=
  ((keyword.splitOn ",").headD "").trim

/-- The difficulty-band cascade of `get_keyword_insights`
(aieo_analyzer.py lines 37-46). -/
def estimatedDifficulty (competing_pages : ℕ) : String :=
  if competing_pages > 100000 then "Very High"
  else if competing_pages > 20000 then "High"
  else if competing_pages > 5000 then "Medium"
  else if competing_pages > 1000 then "Low"
  else "Very Low"

/-- Models `user_domain = urlparse(url).netloc.replace('www.', '')`
(aieo_analyzer.py line 54). -/
def user_domain (url : String) : List Char :=
  stripWWW (netloc url)

/-- The top-10 presence loop of `get_keyword_insights`
(aieo_analyzer.py lines 53-60): true iff `user_domain` occurs as a
substring of the `link` field of one of the first 10 organic results. -/
def domain_in_top_10 (url : String) (organic_links : List String) : Bool :=
  (organic_links.take 10).any (fun link => containsSub (user_domain url) link.data)

/-- The data the two SerpAPI searches of `get_keyword_insights` deliver
when no exception is raised: `total_results` of the allintitle search
(default 0) and the `link` fields of the regular search's organic
results, in order (default `[]`). -/
structure SerpData where
  competing_pages : ℕ
  organic_links : List String

/-- The dictionary returned by `get_keyword_insights` as read by
`main.py`: on the failure paths only `success`/`error` are set, so the
other keys are `Option`s that read as absent. -/
structure AieoDict where
  success : Bool
  keyword_analyzed : Option String
  estimated_difficulty : Option String
  domain_in_top_10 : Option Bool

/-- Function `get_keyword_insights` (aieo_analyzer.py lines 10-71).  `hasKey`
models `API_KEY` being set; `fetch` models the outcome of the two
SerpAPI calls (`.error` when they raise an exception, caught at lines
70-71 and turned into the failure dictionary). -/
def get_keyword_insights (keyword url : String) (hasKey : Bool)
    (fetch : Except String SerpData) : AieoDict :=
  if !hasKey then ⟨false, none, none, none⟩
  else
    match fetch with
    | .error _ => ⟨false, none, none, none⟩
    | .ok d =>
        ⟨true, some (first_keyword keyword),
         some (estimatedDifficulty d.competing_pages),
         some (domain_in_top_10 url d.organic_links)⟩

/-! ## SEO analyzer results as read by `main.py` -/

/-- The three extracted on-page elements of `check_on_page_seo`
(seo_analyzer.py lines 45-55); each is the stripped text or `None`. -/
structure OnPageElements where
  title : Option String
  meta_description : Option String
  h1 : Option String

/-- The output of `run_seo_analysis` as read by `main.py`: the
pagespeed sub-dictionary either carries `performance_score` (`.ok`) or
is a failure dictionary without it (`.error`); the on-page
sub-dictionary is either the element dictionary or the `{"error": ...}`
dictionary from seo_analyzer.py lines 59-60. -/
structure SeoResults where
  pagespeed : Except String ℤ
  on_page_elements : Except String OnPageElements

/-! ## ASO analyzer results as read by `main.py` -/

/-- The dictionary returned by `get_app_store_insights` as read by
`main.py` lines 141-142: on failure the rating/sentiment keys are
absent and `dict.get(..., 0)` yields 0. -/
structure AsoDict where
  success : Bool
  user_rating : Option ℚ
  review_sentiment_score : Option ℚ

/-! ## `main.py` `/analyze/` handler -/

/-- A user row as read by `analyze_url` (database.py `users` table:
`analysis_count` defaults to 0, `subscription_tier` to `'free'`). -/
structure DbUser where
  id : ℕ
  subscription_tier : String
  analysis_count : ℕ

/-- The request body of `POST /analyze/`. -/
structure AnalysisRequest where
  url : Option String
  keyword : Option String
  app_id : Option String

/-- The structured errors `analyze_url` can raise (`HTTPException`s at
main.py lines 83, 87, 91, 149). -/
inductive HTTPError where
  | userNotFound      -- 404 "User not found"
  | limitReached      -- 403 "Analysis limit reached"
  | bothProvided      -- 422 "Provide either URL or App ID, not both"
  | neitherProvided   -- 422 "Provide URL or App ID"
deriving DecidableEq, Repr

/-- The external adapters `analyze_url` can invoke. -/
inductive Adapter where
  | seo
  | aieo
  | aso
deriving DecidableEq, Repr

/-- Outcomes of every external call `analyze_url` makes, threaded in as
data: the SEO adapter results, the AIEO environment (`API_KEY`
presence and SerpAPI outcome), the ASO adapter result, whether the
database user row exists, and whether the two database writes succeed
(database.py catches their errors internally, so a failed write is
silent: `incOk = false` models `increment_analysis_count` hitting a
`psycopg2.Error` and rolling back, `saveOk = false` the same for
`save_analysis_result`). -/
structure Env where
  user : Option DbUser
  seo : SeoResults
  aieoHasKey : Bool
  aieoFetch : Except String SerpData
  aso : AsoDict
  incOk : Bool
  saveOk : Bool

/-- The scoring fields of the response (`seo_score`, `aieo_score`,
`aso_score` are the handler's local variables; `overall_score` is the
response field of main.py line 153). -/
structure ScoreData where
  seo_score : ℚ
  aieo_score : ℚ
  aso_score : ℚ
  overall_score : ℚ
deriving DecidableEq, Repr

/-- Observable side effects of one `analyze_url` call: which adapters
ran (in order), the user's `analysis_count` after the call, and how
many `analysis_history` rows were written (0 or 1). -/
structure Effects where
  adapters : List Adapter
  finalCount : ℕ
  historyLen : ℕ
deriving DecidableEq, Repr

/-- The on-page completeness computation of main.py lines 110-114:
start from 100 and subtract 33.3 for each falsy element; when
`check_on_page_seo` failed the dictionary is `{"error": ...}` so all
three `get`s return `None` and all three subtractions fire. -/
def on_page_completeness (r : Except String OnPageElements) : ℚ :=
  let title := match r with | .ok e => pyTruthy e.title | .error _ => false
  let meta := match r with | .ok e => pyTruthy e.meta_description | .error _ => false
  let h1 := match r with | .ok e => pyTruthy e.h1 | .error _ => false
  let c : ℚ := 100
  let c := if !title then c - 33.3 else c
  let c := if !meta then c - 33.3 else c
  let c := if !h1 then c - 33.3 else c
  c

/-- The SEO sub-score of main.py lines 109-118: pagespeed (0 when the
pagespeed call failed, via `get("performance_score", 0)`), on-page
completeness, and the fixed estimated-CTR placeholder 50. -/
def seoSubScore (seo : SeoResults) : ℚ :=
  let pagespeed : ℚ := match seo.pagespeed with | .ok p => (p : ℚ) | .error _ => 0
  let on_page_completeness := on_page_completeness seo.on_page_elements
  let estimated_ctr : ℚ := 50
  pagespeed * 0.4 + on_page_completeness * 0.3 + estimated_ctr * 0.3

/-- The `difficulty_map` of main.py line 126, as a lookup returning `none`
for unknown keys (`dict.get`). -/
def difficulty_map (s : String) : Option ℚ :=
  if s == "Very Low" then some 100
  else if s == "Low" then some 75
  else if s == "Medium" then some 50
  else if s == "High" then some 25
  else if s == "Very High" then some 0
  else none

/-- The AIEO sub-score of main.py lines 126-131, computed from whatever
dictionary `get_keyword_insights` returned: a missing
`estimated_difficulty` key defaults to `"Medium"`, an unknown band to
50, a missing or false `domain_in_top_10` to no top-10 presence, and
the fixed AI-readability placeholder is 70. -/
def aieoSubScore (d : AieoDict) : ℚ :=
  let difficulty_inverse : ℚ := (difficulty_map (d.estimated_difficulty.getD "Medium")).getD 50
  let top10_presence : ℚ := if d.domain_in_top_10.getD false then 100 else 0
  let ai_readability : ℚ := 70
  difficulty_inverse * 0.4 + top10_presence * 0.3 + ai_readability * 0.3

/-- The ASO sub-score of main.py lines 141-144: `get("user_rating", 0)`
and `get("review_sentiment_score", 0)`. -/
def asoSubScore (d : AsoDict) : ℚ :=
  let user_rating_norm : ℚ := d.user_rating.getD 0 / 5 * 100
  let sentiment_score : ℚ := d.review_sentiment_score.getD 0
  user_rating_norm * 0.5 + sentiment_score * 0.5

/-- The `seo_score` local of `analyze_url`: assigned inside the URL
branch (main.py line 118), else it keeps its 0 initialisation
(line 98). -/
def seoScoreOf (req : AnalysisRequest) (env : Env) : ℚ :=
  if pyTruthy req.url then seoSubScore env.seo else 0

/-- The `aieo_score` local of `analyze_url`: assigned only inside the
keyword branch nested in the URL branch (main.py lines 121-131), else
it keeps its 0 initialisation (line 99). -/
def aieoScoreOf (req : AnalysisRequest) (env : Env) : ℚ :=
  if pyTruthy req.url && pyTruthy req.keyword then
    aieoSubScore (get_keyword_insights (req.keyword.getD "") (req.url.getD "")
      env.aieoHasKey env.aieoFetch)
  else 0

/-- The `aso_score` local of `analyze_url`: assigned inside the app-id
branch (main.py line 144), else it keeps its 0 initialisation
(line 100). -/
def asoScoreOf (req : AnalysisRequest) (env : Env) : ℚ :=
  if pyTruthy req.app_id then asoSubScore env.aso else 0

/-- The score computation of `analyze_url` (main.py lines 98-153): the
three sub-score locals and the overall score of line 152. -/
def computeScores (req : AnalysisRequest) (env : Env) : ScoreData :=
  ⟨seoScoreOf req env, aieoScoreOf req env, asoScoreOf req env,
   pyRound1 (seoScoreOf req env * 0.4 + aieoScoreOf req env * 0.3 +
     asoScoreOf req env * 0.3)⟩

/-- The adapter invocations of `analyze_url`, in source order: the SEO
adapter inside the URL branch, the AIEO adapter inside the nested
keyword branch, the ASO adapter inside the app-id branch. -/
def adaptersInvoked (req : AnalysisRequest) : List Adapter :=
  (if pyTruthy req.url then [.seo] else []) ++
  (if pyTruthy req.url && pyTruthy req.keyword then [.aieo] else []) ++
  (if pyTruthy req.app_id then [.aso] else [])

/-- The `/analyze/` handler `analyze_url` (main.py lines 80-160), with
every external call replaced by its outcome in `env`, in source order:
user lookup → quota check (line 86) → both-present check (line 90) →
adapter branches and sub-scores (lines 102-146, `computeScores`) →
neither-present check (line 148) → overall score (line 152) →
increment then save (lines 156-158, each silently absorbing database
errors).  The neither-present test of line 148 is placed before the
(pure) score computation here; that is sound because when it fires
both adapter branches were skipped, so no adapter ran, no score was
assigned and no effect occurred. -/
def analyze (req : AnalysisRequest) (env : Env) : Except HTTPError ScoreData × Effects :=
  match env.user with
  | none => (.error .userNotFound, ⟨[], 0, 0⟩)
  | some db_user =>
    if db_user.subscription_tier == "free" && decide (10 ≤ db_user.analysis_count) then
      (.error .limitReached, ⟨[], db_user.analysis_count, 0⟩)
    else if pyTruthy req.url && pyTruthy req.app_id then
      (.error .bothProvided, ⟨[], db_user.analysis_count, 0⟩)
    else if !pyTruthy req.url && !pyTruthy req.app_id then
      (.error .neitherProvided, ⟨[], db_user.analysis_count, 0⟩)
    else
      let analysis_performed : Bool := pyTruthy req.url || pyTruthy req.app_id
      let finalCount : ℕ :=
        if analysis_performed && env.incOk then db_user.analysis_count + 1
        else db_user.analysis_count
      let historyLen : ℕ := if analysis_performed && env.saveOk then 1 else 0
      (.ok (computeScores req env), ⟨adaptersInvoked req, finalCount, historyLen⟩)

/-- The number of truthy on-page elements seen by main.py lines
112-114 (0 when the content adapter failed).  Used to state the
corrected form of the completeness formula. -/
def countPresent (r : Except String OnPageElements) : ℕ :=
  match r with
  | .error _ => 0
  | .ok e =>
      (if pyTruthy e.title then 1 else 0) +
      (if pyTruthy e.meta_description then 1 else 0) +
      (if pyTruthy e.h1 then 1 else 0)

/-- Strip one leading `www.` label from a host, as the specification
describes the top-10 domain comparison. -/
def stripLeadingWWW (host : List Char) : List Char :=
  if isPrefixChars ['w', 'w', 'w', '.'] host then host.drop 4 else host

/-- Top-10 presence as the specification (and claim C7) words it, for
comparison against the code's `domain_in_top_10`: some of the first
10 organic result links has a host equal to the target URL's host,
modulo a leading `www.` on either side. -/
def spec_domain_in_top_10 (url : String) (organic_links : List String) : Bool :=
  (organic_links.take 10).any (fun link =>
    stripLeadingWWW (netloc link) == stripLeadingWWW (netloc url))

/-! ## Concrete environments for the individual claims -/

/-- Environment for claim C1: healthy SEO adapter results, an AIEO
provider call that raises, an in-quota free user. -/
def c1Env : Env :=
  ⟨some ⟨1, "free", 0⟩, ⟨.ok 80, .ok ⟨some "Title", some "Desc", some "H1"⟩⟩,
   true, .error "SerpAPI request timed out", ⟨false, none, none⟩, true, true⟩

/-- Environment for claim C2's scenario: performance 80, all three
on-page elements present, no other adapter relevant. -/
def c2Env : Env :=
  ⟨some ⟨1, "free", 0⟩, ⟨.ok 80, .ok ⟨some "Title", some "Desc", some "H1"⟩⟩,
   false, .error "unused", ⟨false, none, none⟩, true, true⟩

/-- Environment for claim C3's witness: same healthy adapter data. -/
def c3Env : Env :=
  ⟨some ⟨4, "free", 0⟩, ⟨.ok 80, .ok ⟨some "Title", some "Desc", some "H1"⟩⟩,
   false, .error "unused", ⟨false, none, none⟩, true, true⟩

/-- Environment for claim C5: the history insert fails
(`saveOk = false`), everything else healthy; the user starts with 3
recorded analyses. -/
def c5Env : Env :=
  ⟨some ⟨7, "free", 3⟩, ⟨.ok 80, .ok ⟨some "Title", some "Desc", some "H1"⟩⟩,
   false, .error "unused", ⟨false, none, none⟩, true, false⟩

/-- Environment for claim C6: a free-tier user already at 10 analyses
(over quota). -/
def c6Env : Env :=
  ⟨some ⟨2, "free", 10⟩, ⟨.error "unused", .error "unused"⟩,
   false, .error "unused", ⟨false, none, none⟩, true, true⟩

/-- Environment for claim C9's witness: a free-tier user at 9
analyses. -/
def c9Env : Env :=
  ⟨some ⟨5, "free", 9⟩, ⟨.ok 80, .ok ⟨some "Title", some "Desc", some "H1"⟩⟩,
   false, .error "unused", ⟨false, none, none⟩, true, true⟩

/-- Environment for claim C10's witness: a paid user, ASO data rating
4.3 and sentiment 76. -/
def c10Env : Env :=
  ⟨some ⟨3, "pro", 42⟩, ⟨.error "unused", .error "unused"⟩,
   false, .error "unused", ⟨true, some (43/10), some 76⟩, true, true⟩

/-! ## Helper lemmas -/

theorem computeScores_seo (req : AnalysisRequest) (env : Env) :
    (computeScores req env).seo_score = seoScoreOf req env := rfl

theorem computeScores_aieo (req : AnalysisRequest) (env : Env) :
    (computeScores req env).aieo_score = aieoScoreOf req env := rfl

theorem computeScores_aso (req : AnalysisRequest) (env : Env) :
    (computeScores req env).aso_score = asoScoreOf req env := rfl

theorem computeScores_overall (req : AnalysisRequest) (env : Env) :
    (computeScores req env).overall_score =
      pyRound1 (seoScoreOf req env * 0.4 + aieoScoreOf req env * 0.3 +
        asoScoreOf req env * 0.3) := rfl

theorem ratFloor_eq (q : ℚ) : (Rat.floor q : ℤ) = ⌊q⌋ := by
  rw [Rat.floor_def', ← Rat.floor_def]

theorem pyRound1_nonneg {x : ℚ} (hx : 0 ≤ x) : 0 ≤ pyRound1 x := by
  have h0 : (0 : ℤ) ≤ ⌊x * 10⌋ := Int.le_floor.mpr (by push_cast; linarith)
  have h0q : (0 : ℚ) ≤ (⌊x * 10⌋ : ℚ) := by exact_mod_cast h0
  simp only [pyRound1, ratFloor_eq]
  split_ifs <;>
    · apply div_nonneg _ (by norm_num)
      push_cast
      linarith

theorem pyRound1_le_intCast {x : ℚ} {m : ℤ} (hx : x ≤ (m : ℚ)) :
    pyRound1 x ≤ (m : ℚ) := by
  have h10 : x * 10 ≤ ((10 * m : ℤ) : ℚ) := by push_cast; linarith
  have hf : ⌊x * 10⌋ ≤ 10 * m := by
    have h := Int.floor_le_floor h10
    rwa [Int.floor_intCast] at h
  simp only [pyRound1, ratFloor_eq]
  rcases lt_or_eq_of_le hf with hlt | heq
  · have hn : ⌊x * 10⌋ + 1 ≤ 10 * m := hlt
    have hnq : ((⌊x * 10⌋ : ℤ) : ℚ) + 1 ≤ 10 * (m : ℚ) := by exact_mod_cast hn
    split_ifs <;>
      · rw [div_le_iff₀ (by norm_num)]
        push_cast
        linarith
  · have hfl : ((10 * m : ℤ) : ℚ) ≤ x * 10 := by
      rw [← heq]
      exact Int.floor_le (x * 10)
    have hx10 : x * 10 = ((10 * m : ℤ) : ℚ) := le_antisymm h10 hfl
    have hr : x * 10 - (⌊x * 10⌋ : ℚ) < 1 / 2 := by
      rw [hx10, ← heq]
      norm_num
    have heqq : ((⌊x * 10⌋ : ℤ) : ℚ) = 10 * (m : ℚ) := by exact_mod_cast heq
    rw [if_pos hr, div_le_iff₀ (by norm_num)]
    linarith

theorem on_page_completeness_cases (r : Except String OnPageElements) :
    on_page_completeness r = 1/10 ∨ on_page_completeness r = 334/10 ∨
    on_page_completeness r = 667/10 ∨ on_page_completeness r = 100 := by
  simp only [on_page_completeness]
  split_ifs <;> norm_num

theorem on_page_completeness_bounds (r : Except String OnPageElements) :
    0 ≤ on_page_completeness r ∧ on_page_completeness r ≤ 100 := by
  rcases on_page_completeness_cases r with h | h | h | h <;> rw [h] <;> norm_num

theorem seoSubScore_bounds (seo : SeoResults)
    (hp : ∀ p, seo.pagespeed = .ok p → 0 ≤ p ∧ p ≤ 100) :
    0 ≤ seoSubScore seo ∧ seoSubScore seo ≤ 85 := by
  have hc := on_page_completeness_bounds seo.on_page_elements
  simp only [seoSubScore]
  rcases hps : seo.pagespeed with e | p
  · norm_num
    constructor <;> nlinarith [hc.1, hc.2]
  · have hpb := hp p hps
    have h0 : (0 : ℚ) ≤ (p : ℚ) := by exact_mod_cast hpb.1
    have h1 : (p : ℚ) ≤ 100 := by exact_mod_cast hpb.2
    norm_num
    constructor <;> nlinarith [hc.1, hc.2]

theorem difficulty_inverse_bounds (s : String) :
    0 ≤ ((difficulty_map s).getD 50 : ℚ) ∧ ((difficulty_map s).getD 50 : ℚ) ≤ 100 := by
  simp only [difficulty_map]
  split_ifs <;> norm_num

theorem aieoSubScore_bounds (d : AieoDict) :
    21 ≤ aieoSubScore d ∧ aieoSubScore d ≤ 91 := by
  have hd := difficulty_inverse_bounds (d.estimated_difficulty.getD "Medium")
  simp only [aieoSubScore]
  split_ifs <;> constructor <;> nlinarith [hd.1, hd.2]

theorem asoSubScore_bounds (a : AsoDict)
    (hr : ∀ r, a.user_rating = some r → 1 ≤ r ∧ r ≤ 5)
    (hs : ∀ s, a.review_sentiment_score = some s → 0 ≤ s ∧ s ≤ 100) :
    0 ≤ asoSubScore a ∧ asoSubScore a ≤ 100 := by
  have hrb : 0 ≤ a.user_rating.getD 0 ∧ a.user_rating.getD 0 ≤ 5 := by
    rcases h : a.user_rating with _ | r
    · norm_num
    · have := hr r h
      simp only [Option.getD_some]
      constructor <;> linarith [this.1, this.2]
  have hsb : 0 ≤ a.review_sentiment_score.getD 0 ∧ a.review_sentiment_score.getD 0 ≤ 100 := by
    rcases h : a.review_sentiment_score with _ | s
    · norm_num
    · have := hs s h
      simp only [Option.getD_some]
      exact this
  simp only [asoSubScore]
  constructor <;> nlinarith [hrb.1, hrb.2, hsb.1, hsb.2]

/-- Unfolding of `analyze` once the user row is known. -/
theorem analyze_some (req : AnalysisRequest) (env : Env) (u : DbUser)
    (henv : env.user = some u) :
    analyze req env =
      if (u.subscription_tier == "free" && decide (10 ≤ u.analysis_count)) = true then
        (.error .limitReached, ⟨[], u.analysis_count, 0⟩)
      else if (pyTruthy req.url && pyTruthy req.app_id) = true then
        (.error .bothProvided, ⟨[], u.analysis_count, 0⟩)
      else if (!pyTruthy req.url && !pyTruthy req.app_id) = true then
        (.error .neitherProvided, ⟨[], u.analysis_count, 0⟩)
      else
        (.ok (computeScores req env),
         ⟨adaptersInvoked req,
          if ((pyTruthy req.url || pyTruthy req.app_id) && env.incOk) = true then
            u.analysis_count + 1
          else u.analysis_count,
          if ((pyTruthy req.url || pyTruthy req.app_id) && env.saveOk) = true then 1 else 0⟩) := by
  unfold analyze
  rw [henv]

/-- Every `.ok` result of `analyze` is the value of `computeScores`. -/
theorem analyze_ok_eq {req : AnalysisRequest} {env : Env} {d : ScoreData}
    (h : (analyze req env).1 = .ok d) : d = computeScores req env := by
  unfold analyze at h
  rcases henv : env.user with _ | u <;> rw [henv] at h
  · simp at h
  · dsimp only at h
    by_cases h1 : (u.subscription_tier == "free" && decide (10 ≤ u.analysis_count)) = true
    · rw [if_pos h1] at h; simp at h
    · rw [if_neg h1] at h
      by_cases h2 : (pyTruthy req.url && pyTruthy req.app_id) = true
      · rw [if_pos h2] at h; simp at h
      · rw [if_neg h2] at h
        by_cases h3 : (!pyTruthy req.url && !pyTruthy req.app_id) = true
        · rw [if_pos h3] at h; simp at h
        · rw [if_neg h3] at h
          simp at h
          exact h.symm

theorem isPrefixChars_iff (p : List Char) :
    ∀ l, isPrefixChars p l = true ↔ p <+: l := by
  induction p with
  | nil => intro l; simp [ isPrefixChars]
  | cons a as ih =>
    intro l
    cases l with
    | nil => simp [ isPrefixChars]
    | cons b bs => simp [ isPrefixChars, ih, List.cons_prefix_cons]

theorem containsSub_iff (p : List Char) :
    ∀ l, containsSub p l = true ↔ p <:+: l := by
  intro l
  induction l with
  | nil => cases p <;> simp [ containsSub, isPrefixChars]
  | cons c rest ih =>
    simp [ containsSub, isPrefixChars_iff, ih, List.infix_cons_iff]

/-! ## Claims -/

/-- C8: for every non-negative competing-page count, the difficulty
band is Very High iff count > 100000, High iff 20000 < count ≤ 100000,
Medium iff 5000 < count ≤ 20000, Low iff 1000 < count ≤ 5000, and Very
Low iff count ≤ 1000; the boundary counts 1000, 1001, 5000, 5001,
20000, 20001, 100000, 100001 map to Very Low, Low, Low, Medium,
Medium, High, High, Very High respectively. -/
theorem difficulty_band_thresholds :
    (∀ n : ℕ,
      (estimatedDifficulty n = "Very High" ↔ 100000 < n) ∧
      (estimatedDifficulty n = "High" ↔ 20000 < n ∧ n ≤ 100000) ∧
      (estimatedDifficulty n = "Medium" ↔ 5000 < n ∧ n ≤ 20000) ∧
      (estimatedDifficulty n = "Low" ↔ 1000 < n ∧ n ≤ 5000) ∧
      (estimatedDifficulty n = "Very Low" ↔ n ≤ 1000))
    ∧ estimatedDifficulty 1000 = "Very Low" ∧ estimatedDifficulty 1001 = "Low"
    ∧ estimatedDifficulty 5000 = "Low" ∧ estimatedDifficulty 5001 = "Medium"
    ∧ estimatedDifficulty 20000 = "Medium" ∧ estimatedDifficulty 20001 = "High"
    ∧ estimatedDifficulty 100000 = "High" ∧ estimatedDifficulty 100001 = "Very High" := by
  refine ⟨?_, by decide, by decide, by decide, by decide, by decide, by decide,
    by decide, by decide⟩
  intro n
  unfold estimatedDifficulty
  split_ifs <;> refine ⟨?_, ?_, ?_, ?_, ?_⟩ <;> simp +decide <;> omega

/-- C8 witness: the band at the concrete boundary count 1001 is Low. -/
theorem difficulty_band_thresholds_witness :
    estimatedDifficulty 1001 = "Low" ∧ 1000 < 1001 ∧ 1001 ≤ 5000 :=
  ⟨(difficulty_band_thresholds.1 1001).2.2.2.1.mpr ⟨by omega, by omega⟩,
   by omega, by omega⟩

/-- C4 counterexample: with zero on-page elements present the code's
completeness is 0.1 (not the claimed 0), with two present it is 66.7
(not the claimed 200/3), and a failed content adapter also yields 0.1
(not the claimed 0). -/
theorem completeness_counterexample :
    on_page_completeness (.ok ⟨none, none, none⟩) = 1/10
    ∧ on_page_completeness (.error "connection refused") = 1/10
    ∧ on_page_completeness (.ok ⟨some "Title", some "Desc", none⟩) = 667/10
    ∧ (1/10 : ℚ) ≠ 0
    ∧ (667/10 : ℚ) ≠ 200/3 := by
  refine ⟨?_, ?_, ?_, by norm_num, by norm_num⟩ <;>
    · simp +decide [ on_page_completeness, pyTruthy]
      norm_num

/-- C4 (amended): the on-page completeness starts at 100 and subtracts
33.3 for each of the three elements that is missing (so three present
→ 100, two → 66.7, one → 33.4, zero → 0.1); a failed content adapter
makes all three read as missing, giving 0.1, not 0. -/
theorem completeness_subtraction (r : Except String OnPageElements) :
    on_page_completeness r = 100 - 33.3 * ((3 - countPresent r : ℕ) : ℚ) := by
  rcases r with e | el
  · simp [ on_page_completeness, countPresent]
    norm_num
  · simp only [ on_page_completeness, countPresent]
    split_ifs <;> simp_all <;> norm_num

/-- C4 witness: the amended formula evaluated at a page with only a
title present gives 100 - 33.3 * 2 = 33.4. -/
theorem completeness_subtraction_witness :
    on_page_completeness (.ok ⟨some "Title", none, none⟩)
      = 100 - 33.3 * ((3 - countPresent (.ok ⟨some "Title", none, none⟩) : ℕ) : ℚ) :=
  completeness_subtraction (.ok ⟨some "Title", none, none⟩)

/-- C7 counterexample: for target `https://example.com/` and a single
organic result whose link merely contains the text `example.com` in
its path, the code reports top-10 presence although no result's host
equals the target's host modulo a leading `www.`. -/
theorem top10_substring_counterexample :
    domain_in_top_10 "https://example.com/"
      ["https://attacker.com/why-example.com-rocks"] = true
    ∧ spec_domain_in_top_10 "https://example.com/"
      ["https://attacker.com/why-example.com-rocks"] = false := by
  decide

/-- C7 (amended): top-10 presence is reported exactly when the target
URL's netloc, with every occurrence of `www.` removed, occurs as a
substring anywhere in the raw link string of one of the first 10
organic results (substring containment, not host equality). -/
theorem top10_substring_match (url : String) (links : List String) :
    domain_in_top_10 url links = true
      ↔ ∃ link ∈ links.take 10, user_domain url <:+: link.data := by
  simp [ domain_in_top_10, containsSub_iff]

/-- C7 witness: the amended characterisation at a concrete input where
the target's `www.`-stripped netloc occurs in a result link. -/
theorem top10_substring_match_witness :
    domain_in_top_10 "https://www.shop.example/" ["https://shop.example/page"] = true
    ∧ ∃ link ∈ (["https://shop.example/page"] : List String).take 10,
        user_domain "https://www.shop.example/" <:+: link.data := by
  have hd : domain_in_top_10 "https://www.shop.example/"
      ["https://shop.example/page"] = true := by decide
  exact ⟨hd, (top10_substring_match "https://www.shop.example/"
    ["https://shop.example/page"]).mp hd⟩

/-- C10: for every request whose URL is absent (in particular one that
supplies a keyword), the AIEO adapter is never invoked and the AIEO
dimension contributes 0: the `aieo_score` stays 0 and the overall
score is computed with a 0 AIEO term. -/
theorem keyword_requires_url (req : AnalysisRequest) (env : Env)
    (hkw : pyTruthy req.keyword = true) (hurl : pyTruthy req.url = false) :
    Adapter.aieo ∉ (analyze req env).2.adapters
    ∧ ∀ d, (analyze req env).1 = .ok d →
        d.aieo_score = 0
        ∧ d.overall_score = pyRound1 (d.seo_score * 0.4 + 0 * 0.3 + d.aso_score * 0.3) := by
  constructor
  · rcases henv : env.user with _ | u
    · simp [ analyze, henv]
    · rw [analyze_some req env u henv]
      split_ifs <;> simp [ adaptersInvoked, hurl]
  · intro d hok
    have hd := analyze_ok_eq hok
    subst hd
    constructor
    · simp [ computeScores_aieo, aieoScoreOf, hurl]
    · simp [ computeScores_overall, computeScores_seo, computeScores_aso,
        aieoScoreOf, hurl]

/-- C10 witness: an app-id-only request carrying a keyword never runs
the AIEO adapter and gets `aieo_score = 0`. -/
theorem keyword_requires_url_witness :
    Adapter.aieo ∉ (analyze ⟨none, some "shoes", some "com.instagram.android"⟩
      c10Env).2.adapters
    ∧ (⟨0, 0, 81, 243/10⟩ : ScoreData).aieo_score = 0 := by
  have hok : (analyze ⟨none, some "shoes", some "com.instagram.android"⟩ c10Env).1
      = .ok ⟨0, 0, 81, 243/10⟩ := by
    simp +decide [ analyze, c10Env, computeScores, seoScoreOf, aieoScoreOf, asoScoreOf,
      pyTruthy, asoSubScore]
    norm_num [ pyRound1, ratFloor_eq]
  have h := keyword_requires_url ⟨none, some "shoes", some "com.instagram.android"⟩
    c10Env (by decide) (by decide)
  exact ⟨h.1, (h.2 _ hok).1⟩

/-- C9: with the user row present, the handler answers QuotaExceeded
exactly when the tier is `free` and the stored count is at least 10;
on that rejection no adapter has been invoked; a non-free tier is
never rejected for quota; and every successful analysis with a working
counter update increments the stored count by exactly 1. -/
theorem quota_gate_free_tier (req : AnalysisRequest) (env : Env) (u : DbUser)
    (henv : env.user = some u) :
    ((analyze req env).1 = .error .limitReached
      ↔ u.subscription_tier = "free" ∧ 10 ≤ u.analysis_count)
    ∧ ((analyze req env).1 = .error .limitReached → (analyze req env).2.adapters = [])
    ∧ (u.subscription_tier ≠ "free" → (analyze req env).1 ≠ .error .limitReached)
    ∧ (∀ d, (analyze req env).1 = .ok d → env.incOk = true →
        (analyze req env).2.finalCount = u.analysis_count + 1) := by
  rw [analyze_some req env u henv]
  refine ⟨?_, ?_, ?_, ?_⟩
  · split_ifs with h1 h2 h3 <;> simp_all
  · split_ifs with h1 h2 h3 <;> simp_all
  · intro hfree
    split_ifs with h1 h2 h3 <;> simp_all
  · intro d hd hinc
    split_ifs at hd ⊢ with h1 h2 h3 <;> simp_all

/-- C9 witness: a free account at 9 prior analyses is accepted and its
count becomes 10. -/
theorem quota_gate_free_tier_witness :
    (analyze ⟨some "https://example.net/", none, none⟩ c9Env).1
      ≠ .error .limitReached
    ∧ (analyze ⟨some "https://example.net/", none, none⟩ c9Env).2.finalCount = 10 := by
  have h := quota_gate_free_tier ⟨some "https://example.net/", none, none⟩ c9Env
    ⟨5, "free", 9⟩ rfl
  have hok : (analyze ⟨some "https://example.net/", none, none⟩ c9Env).1
      = .ok ⟨77, 0, 0, 154/5⟩ := by
    simp +decide [ analyze, c9Env, computeScores, seoScoreOf, aieoScoreOf, asoScoreOf,
      pyTruthy, seoSubScore, on_page_completeness]
    norm_num [ pyRound1, ratFloor_eq]
  constructor
  · intro hbad
    exact absurd (h.1.mp hbad).2 (by decide)
  · have h10 := h.2.2.2 _ hok rfl
    simpa using h10

/-- C6 counterexample: a request carrying both a URL and an app id
from an over-quota free account is answered with the quota error, not
the invalid-target error. -/
theorem quota_before_validation_counterexample :
    (analyze ⟨some "https://a.example/", none, some "com.example.app"⟩ c6Env).1
      = .error .limitReached
    ∧ HTTPError.limitReached ≠ HTTPError.bothProvided := by
  constructor
  · simp +decide [ analyze, c6Env]
  · decide

/-- C6 (amended): the handler checks the quota gate before validating
the target shape, so an over-quota free account receives QuotaExceeded
whatever the target shape; once the gate passes, both-present and
neither-present targets are rejected as invalid; on every error
outcome no adapter has been invoked. -/
theorem quota_checked_before_shape (req : AnalysisRequest) (env : Env) (u : DbUser)
    (henv : env.user = some u) :
    (u.subscription_tier = "free" → 10 ≤ u.analysis_count →
      (analyze req env).1 = .error .limitReached)
    ∧ (¬(u.subscription_tier = "free" ∧ 10 ≤ u.analysis_count) →
        pyTruthy req.url = true → pyTruthy req.app_id = true →
        (analyze req env).1 = .error .bothProvided)
    ∧ (¬(u.subscription_tier = "free" ∧ 10 ≤ u.analysis_count) →
        pyTruthy req.url = false → pyTruthy req.app_id = false →
        (analyze req env).1 = .error .neitherProvided)
    ∧ (∀ e, (analyze req env).1 = .error e → (analyze req env).2.adapters = []) := by
  rw [analyze_some req env u henv]
  refine ⟨?_, ?_, ?_, ?_⟩
  · intro h1 h2
    rw [if_pos (by simp [ h1, h2])]
  · intro hq hu ha
    rw [if_neg (by simp only [Bool.and_eq_true, beq_iff_eq, decide_eq_true_eq]; exact hq),
      if_pos (by simp [ hu, ha])]
  · intro hq hu ha
    rw [if_neg (by simp only [Bool.and_eq_true, beq_iff_eq, decide_eq_true_eq]; exact hq),
      if_neg (by simp [ hu, ha]), if_pos (by simp [ hu, ha])]
  · intro e he
    split_ifs at he ⊢ <;> simp_all

/-- C6 witness: the amended order at the concrete over-quota account
with an invalid (both-present) target: quota error, no adapter run. -/
theorem quota_checked_before_shape_witness :
    (analyze ⟨some "https://a.example/", none, some "com.example.app"⟩ c6Env).1
      = .error .limitReached
    ∧ (analyze ⟨some "https://a.example/", none, some "com.example.app"⟩
        c6Env).2.adapters = [] := by
  have h := quota_checked_before_shape
    ⟨some "https://a.example/", none, some "com.example.app"⟩ c6Env ⟨2, "free", 10⟩ rfl
  have h1 := h.1 rfl (by decide)
  exact ⟨h1, h.2.2.2 _ h1⟩

/-- C5 counterexample: with the history insert failing
(`c5Env.saveOk = false`) the handler still returns the computed scores
as a success and the quota counter has still been incremented from 3
to 4, while nothing was stored. -/
theorem persistence_failure_counterexample :
    c5Env.saveOk = false
    ∧ (analyze ⟨some "https://example.org/", none, none⟩ c5Env).1
      = .ok ⟨77, 0, 0, 154/5⟩
    ∧ (analyze ⟨some "https://example.org/", none, none⟩ c5Env).2
      = ⟨[.seo], 4, 0⟩ := by
  refine ⟨rfl, ?_, ?_⟩ <;>
    simp +decide [ analyze, c5Env, computeScores, seoScoreOf, aieoScoreOf, asoScoreOf,
      adaptersInvoked, pyTruthy, seoSubScore, on_page_completeness] <;>
    norm_num [ pyRound1, ratFloor_eq]

/-- C5 (amended): a failing history insert is absorbed inside the
persistence layer: the handler's response (including success) and the
quota counter are exactly what they would be with a working insert —
the counter is incremented regardless, because the increment is issued
before the insert — and no history record is stored. -/
theorem persistence_failure_swallowed (req : AnalysisRequest) (env : Env) :
    (analyze req { env with saveOk := false }).1
      = (analyze req { env with saveOk := true }).1
    ∧ (analyze req { env with saveOk := false }).2.finalCount
      = (analyze req { env with saveOk := true }).2.finalCount
    ∧ (analyze req { env with saveOk := false }).2.historyLen = 0 := by
  rcases henv : env.user with _ | u
  · simp [ analyze, henv]
  · rw [analyze_some req ⟨some u, env.seo, env.aieoHasKey, env.aieoFetch, env.aso,
        env.incOk, false⟩ u rfl,
      analyze_some req ⟨some u, env.seo, env.aieoHasKey, env.aieoFetch, env.aso,
        env.incOk, true⟩ u rfl]
    dsimp only
    split_ifs <;> simp_all [ computeScores, seoScoreOf, aieoScoreOf, asoScoreOf]

/-- C5 witness: the amended claim at the concrete failing-persistence
environment. -/
theorem persistence_failure_swallowed_witness :
    (analyze ⟨some "https://example.org/", none, none⟩ { c5Env with saveOk := false }).1
      = (analyze ⟨some "https://example.org/", none, none⟩ { c5Env with saveOk := true }).1
    ∧ (analyze ⟨some "https://example.org/", none, none⟩
        { c5Env with saveOk := false }).2.historyLen = 0 :=
  ⟨(persistence_failure_swallowed ⟨some "https://example.org/", none, none⟩ c5Env).1,
   (persistence_failure_swallowed ⟨some "https://example.org/", none, none⟩ c5Env).2.2⟩

/-- C1 counterexample: with healthy SEO data (sub-score 77) and an
AIEO provider call that raises, a request with URL and keyword scores
overall 43.1 while the same request without the keyword scores 30.8 —
the failed AIEO dimension is not omitted from the composite. -/
theorem aieo_failure_counterexample :
    (analyze ⟨some "https://example.com/", some "shoes", none⟩ c1Env).1
      = .ok ⟨77, 41, 0, 431/10⟩
    ∧ (analyze ⟨some "https://example.com/", none, none⟩ c1Env).1
      = .ok ⟨77, 0, 0, 154/5⟩
    ∧ (431/10 : ℚ) ≠ 154/5 := by
  refine ⟨?_, ?_, by norm_num⟩ <;>
    simp +decide [ analyze, c1Env, computeScores, seoScoreOf, aieoScoreOf, asoScoreOf,
      pyTruthy, seoSubScore, on_page_completeness, aieoSubScore, get_keyword_insights,
      difficulty_map] <;>
    norm_num [ pyRound1, ratFloor_eq]

/-- C1 (amended): when the AIEO provider call fails (exception or
missing API key), the failure dictionary is still fed through the AIEO
sub-score formula with its lookup defaults — difficulty falls back to
Medium (50), top-10 presence to absent (0), readability stays 70 — so
`aieo_score = 41` and the overall score carries a 41 * 0.3 AIEO term
instead of the dimension being omitted (contributing 0). -/
theorem aieo_failure_defaults_to_41 (req : AnalysisRequest) (env : Env) (d : ScoreData)
    (hurl : pyTruthy req.url = true) (hkw : pyTruthy req.keyword = true)
    (hfail : env.aieoHasKey = false ∨ ∃ e, env.aieoFetch = .error e)
    (hok : (analyze req env).1 = .ok d) :
    d.aieo_score = 41
    ∧ d.overall_score
      = pyRound1 (d.seo_score * 0.4 + 41 * 0.3 + d.aso_score * 0.3) := by
  have hd := analyze_ok_eq hok
  subst hd
  have ha : aieoScoreOf req env = 41 := by
    unfold aieoScoreOf
    rw [if_pos (by simp [ hurl, hkw])]
    rcases hfail with hk | ⟨e, hf⟩
    · simp +decide [ get_keyword_insights, hk, aieoSubScore, difficulty_map]
      norm_num
    · simp +decide [ get_keyword_insights, hf, aieoSubScore, difficulty_map]
      norm_num
  refine ⟨by rw [computeScores_aieo, ha], ?_⟩
  rw [computeScores_overall, computeScores_seo, computeScores_aso, ha]

/-- C1 witness: the amended claim instantiated at the concrete failing
environment of the counterexample. -/
theorem aieo_failure_defaults_to_41_witness :
    (⟨77, 41, 0, 431/10⟩ : ScoreData).aieo_score = 41
    ∧ (⟨77, 41, 0, 431/10⟩ : ScoreData).overall_score
      = pyRound1 ((⟨77, 41, 0, 431/10⟩ : ScoreData).seo_score * 0.4 + 41 * 0.3
          + (⟨77, 41, 0, 431/10⟩ : ScoreData).aso_score * 0.3) := by
  have hok : (analyze ⟨some "https://example.com/", some "shoes", none⟩ c1Env).1
      = .ok ⟨77, 41, 0, 431/10⟩ := by
    simp +decide [ analyze, c1Env, computeScores, seoScoreOf, aieoScoreOf, asoScoreOf,
      pyTruthy, seoSubScore, on_page_completeness, aieoSubScore, get_keyword_insights,
      difficulty_map]
    norm_num [ pyRound1, ratFloor_eq]
  exact aieo_failure_defaults_to_41 ⟨some "https://example.com/", some "shoes", none⟩
    c1Env ⟨77, 41, 0, 431/10⟩ (by decide) (by decide)
    (Or.inr ⟨"SerpAPI request timed out", rfl⟩) hok

/-- C2: every successful analysis answers
`overall = pyRound1(seo*0.4 + aieo*0.3 + aso*0.3)` where a
dimension whose branch did not run contributes a literal 0 under its
nominal weight (no renormalisation); the documented scenario
(URL only, performance 80, all on-page elements present, no keyword)
yields `seo_score = 77` and `overall = 30.8`. -/
theorem overall_weighted_formula (req : AnalysisRequest) (env : Env) (d : ScoreData)
    (hok : (analyze req env).1 = .ok d) :
    d.overall_score = pyRound1 (d.seo_score * 0.4 + d.aieo_score * 0.3 + d.aso_score * 0.3)
    ∧ (pyTruthy req.url = false → d.seo_score = 0)
    ∧ (pyTruthy req.url = false ∨ pyTruthy req.keyword = false → d.aieo_score = 0)
    ∧ (pyTruthy req.app_id = false → d.aso_score = 0)
    ∧ (analyze ⟨some "https://scenario.example/", none, none⟩ c2Env).1
      = .ok ⟨77, 0, 0, 154/5⟩ := by
  have hd := analyze_ok_eq hok
  subst hd
  refine ⟨rfl, ?_, ?_, ?_, ?_⟩
  · intro h
    simp [ computeScores_seo, seoScoreOf, h]
  · rintro (h | h) <;> simp [ computeScores_aieo, aieoScoreOf, h]
  · intro h
    simp [ computeScores_aso, asoScoreOf, h]
  · simp +decide [ analyze, c2Env, computeScores, seoScoreOf, aieoScoreOf, asoScoreOf,
      pyTruthy, seoSubScore, on_page_completeness]
    norm_num [ pyRound1, ratFloor_eq]

/-- C2 witness: the formula and the absent-dimension policy at the
concrete scenario run. -/
theorem overall_weighted_formula_witness :
    (⟨77, 0, 0, 154/5⟩ : ScoreData).overall_score
      = pyRound1 ((⟨77, 0, 0, 154/5⟩ : ScoreData).seo_score * 0.4
          + (⟨77, 0, 0, 154/5⟩ : ScoreData).aieo_score * 0.3
          + (⟨77, 0, 0, 154/5⟩ : ScoreData).aso_score * 0.3)
    ∧ (⟨77, 0, 0, 154/5⟩ : ScoreData).aso_score = 0 := by
  have hok : (analyze ⟨some "https://scenario.example/", none, none⟩ c2Env).1
      = .ok ⟨77, 0, 0, 154/5⟩ := by
    simp +decide [ analyze, c2Env, computeScores, seoScoreOf, aieoScoreOf, asoScoreOf,
      pyTruthy, seoSubScore, on_page_completeness]
    norm_num [ pyRound1, ratFloor_eq]
  have h := overall_weighted_formula ⟨some "https://scenario.example/", none, none⟩
    c2Env ⟨77, 0, 0, 154/5⟩ hok
  exact ⟨h.1, h.2.2.2.1 (by decide)⟩

/-- C3: under the documented adapter ranges (performance 0-100, rating
1-5, sentiment 0-100), every successful analysis has all three
sub-scores and the overall score in [0, 100], and a URL-only request
without keyword or app id has overall at most 40. -/
theorem scores_bounded (req : AnalysisRequest) (env : Env) (d : ScoreData)
    (hp : ∀ p, env.seo.pagespeed = Except.ok p → 0 ≤ p ∧ p ≤ 100)
    (hr : ∀ r, env.aso.user_rating = some r → 1 ≤ r ∧ r ≤ 5)
    (hs : ∀ s, env.aso.review_sentiment_score = some s → 0 ≤ s ∧ s ≤ 100)
    (hok : (analyze req env).1 = .ok d) :
    (0 ≤ d.seo_score ∧ d.seo_score ≤ 100)
    ∧ (0 ≤ d.aieo_score ∧ d.aieo_score ≤ 100)
    ∧ (0 ≤ d.aso_score ∧ d.aso_score ≤ 100)
    ∧ (0 ≤ d.overall_score ∧ d.overall_score ≤ 100)
    ∧ (pyTruthy req.keyword = false → pyTruthy req.app_id = false →
        d.overall_score ≤ 40) := by
  have hd := analyze_ok_eq hok
  subst hd
  have hseo := seoSubScore_bounds env.seo hp
  have haieo := aieoSubScore_bounds (get_keyword_insights (req.keyword.getD "")
    (req.url.getD "") env.aieoHasKey env.aieoFetch)
  have haso := asoSubScore_bounds env.aso hr hs
  have hs1 : 0 ≤ seoScoreOf req env ∧ seoScoreOf req env ≤ 85 := by
    unfold seoScoreOf
    split_ifs
    · exact hseo
    · norm_num
  have ha1 : 0 ≤ aieoScoreOf req env ∧ aieoScoreOf req env ≤ 91 := by
    unfold aieoScoreOf
    split_ifs
    · exact ⟨by linarith [haieo.1], haieo.2⟩
    · norm_num
  have ho1 : 0 ≤ asoScoreOf req env ∧ asoScoreOf req env ≤ 100 := by
    unfold asoScoreOf
    split_ifs
    · exact haso
    · norm_num
  refine ⟨?_, ?_, ?_, ?_, ?_⟩
  · rw [computeScores_seo]
    exact ⟨hs1.1, by linarith [hs1.2]⟩
  · rw [computeScores_aieo]
    exact ⟨ha1.1, by linarith [ha1.2]⟩
  · rw [computeScores_aso]
    exact ho1
  · rw [computeScores_overall]
    constructor
    · exact pyRound1_nonneg (by linarith [hs1.1, ha1.1, ho1.1])
    · have hx : seoScoreOf req env * 0.4 + aieoScoreOf req env * 0.3 +
          asoScoreOf req env * 0.3 ≤ ((100 : ℤ) : ℚ) := by
        push_cast
        linarith [hs1.2, ha1.2, ho1.2]
      have h := pyRound1_le_intCast hx
      simpa using h
  · intro hk happ
    have hai : aieoScoreOf req env = 0 := by
      unfold aieoScoreOf
      simp [ hk]
    have hao : asoScoreOf req env = 0 := by
      unfold asoScoreOf
      simp [ happ]
    rw [computeScores_overall, hai, hao]
    have hx : seoScoreOf req env * 0.4 + 0 * 0.3 + 0 * 0.3 ≤ ((34 : ℤ) : ℚ) := by
      push_cast
      linarith [hs1.2]
    have h := pyRound1_le_intCast hx
    have h34 : ((34 : ℤ) : ℚ) ≤ 40 := by norm_num
    linarith

/-- C3 witness: the bounds at the concrete URL-only run (seo 77,
overall 30.8 ≤ 40). -/
theorem scores_bounded_witness :
    (0 ≤ (⟨77, 0, 0, 154/5⟩ : ScoreData).overall_score
      ∧ (⟨77, 0, 0, 154/5⟩ : ScoreData).overall_score ≤ 100)
    ∧ (⟨77, 0, 0, 154/5⟩ : ScoreData).overall_score ≤ 40 := by
  have hok : (analyze ⟨some "https://scenario.example/", none, none⟩ c3Env).1
      = .ok ⟨77, 0, 0, 154/5⟩ := by
    simp +decide [ analyze, c3Env, computeScores, seoScoreOf, aieoScoreOf, asoScoreOf,
      pyTruthy, seoSubScore, on_page_completeness]
    norm_num [ pyRound1, ratFloor_eq]
  have h := scores_bounded ⟨some "https://scenario.example/", none, none⟩ c3Env
    ⟨77, 0, 0, 154/5⟩
    (by rintro p hp; cases hp; constructor <;> norm_num)
    (fun r hr => nomatch hr) (fun s hs => nomatch hs) hok
  exact ⟨h.2.2.2.1, h.2.2.2.2 (by decide) (by decide)⟩

end RankOnTop
